import Mathlib

/-!
# goblog: configuration loading (`internal/config/config.go`)

A shallow embedding of `Load` and `getEnv`, and the properties of the
configuration they produce.

* The process environment is a finite map from names to values, here a
  function `String → Option String`: `none` is an unset variable and
  `some ""` a variable set to the empty string.
* `log.Fatalf` ends the process; a run of `Load` that reaches it is the
  `Except.error` carrying the format string and the arguments of the call.
* `godotenv.Load()` and the `%q` verb belong to libraries outside this
  package; both are taken as parameters. `godotenvLoad` is the overlay of a
  `.env` file: it sets the variables the process environment does not have.
* Go strings are Lean strings; `Load` only compares them for equality.
-/

namespace Goblog

/-- The process environment: the value of each variable, `none` when unset. -/
abbrev Environ := String → Option String

/-- Go `os.Getenv`: the value of the variable, the empty string when it is unset. -/
def Getenv (env : Environ) (key : String) : String :=
  match env key with
  | some value => value
  | none => ""

/-- Go `os.Setenv` on the environment. -/
def Setenv (env : Environ) (key value : String) : Environ :=
  fun k => if k = key then some value else env k

/-- Go `os.Unsetenv` on the environment. -/
def Unsetenv (env : Environ) (key : String) : Environ :=
  fun k => if k = key then none else env k

/-- The environment with no variable set. -/
def emptyEnviron : Environ := fun _ => none

/-- The environment holding exactly the listed bindings (the first binding of a name wins). -/
def environOf (bindings : List (String × String)) : Environ :=
  fun k => (bindings.find? (fun b => b.1 == k)).map Prod.snd

/-- The `Config` struct of `config.go`. -/
structure Config where
  Port : String
  BaseURL : String
  BlogTitle : String
  BlogDescription : String
  AuthorName : String
  AdminUsername : String
  AdminPassword : String
  DBPath : String
  UploadDir : String
  SessionSecret : String
  Env : String
deriving DecidableEq, Repr

/-- A call `log.Fatalf(format, args...)`: the process ends with this message. -/
structure Fatal where
  format : String
  args : List String
deriving DecidableEq, Repr

/-- Expansion of a format string whose only verb is `%q`: each `%q` is replaced by
the quoted form of the next argument, every other character is copied. -/
def sprintfQ (quote : String → String) : List Char → List String → List Char
  | [], _ => []
  | [c], _ => [c]
  | c :: d :: rest, args =>
    if c = '%' ∧ d = 'q' then
      match args with
      | a :: more => (quote a).toList ++ sprintfQ quote rest more
      | [] => c :: d :: sprintfQ quote rest []
    else c :: sprintfQ quote (d :: rest) args

/-- The message a fatal call prints, given the library function behind `%q`. -/
def Fatal.message (quote : String → String) (f : Fatal) : String :=
  String.mk (sprintfQ quote f.format.toList f.args)

deriving instance DecidableEq for Except

/-- Source `getEnv(key, fallback)`. -/
def getEnv (env : Environ) (key fallback : String) : String :=
  let value := Getenv env key
  if value ≠ "" then value else fallback

/-- The fatal call of `Load` for a bad `GOBLOG_ENV` value. -/
def invalidEnvFatal (v : String) : Fatal :=
  { format := "invalid GOBLOG_ENV value %q: must be \"development\" or \"production\"",
    args := [v] }

/-- The fatal call of `Load` for missing production credentials. -/
def missingCredentialsFatal : Fatal :=
  { format := "GOBLOG_ADMIN_USERNAME and GOBLOG_ADMIN_PASSWORD are required in production",
    args := [] }

/-- Source `Load()`. `overlay` is the effect of the call `godotenv.Load()` on the
process environment (its error result is discarded); the eleven lookups read the
environment that call leaves behind. A fatal exit is `Except.error`. -/
def Load (overlay : Environ → Environ) (env : Environ) : Except Fatal Config :=
  let env := overlay env
  let cfg : Config :=
    { Port := getEnv env "GOBLOG_PORT" "8069",
      BaseURL := getEnv env "GOBLOG_BASE_URL" "http://localhost:8069",
      BlogTitle := getEnv env "GOBLOG_BLOG_TITLE" "Manas's Blog",
      BlogDescription := getEnv env "GOBLOG_BLOG_DESCRIPTION" "",
      AuthorName := getEnv env "GOBLOG_AUTHOR_NAME" "Manas",
      AdminUsername := getEnv env "GOBLOG_ADMIN_USERNAME" "",
      AdminPassword := getEnv env "GOBLOG_ADMIN_PASSWORD" "",
      DBPath := getEnv env "GOBLOG_DB_PATH" "./goblog.db",
      UploadDir := getEnv env "GOBLOG_UPLOAD_DIR" "./uploads",
      SessionSecret := getEnv env "GOBLOG_SESSION_SECRET" "",
      Env := getEnv env "GOBLOG_ENV" "development" }
  if cfg.Env ≠ "development" ∧ cfg.Env ≠ "production" then
    .error (invalidEnvFatal cfg.Env)
  else if cfg.Env = "production" ∧ (cfg.AdminUsername = "" ∨ cfg.AdminPassword = "") then
    .error missingCredentialsFatal
  else
    .ok cfg

/-- The case of `godotenv.Load()` in which no overlay file is read: the
environment is left as it was. -/
def noOverlay : Environ → Environ := fun env => env

/-- The call `godotenv.Load()` when the file `.env` is read: `file` gives the value
the file defines for each name (`none` for a name it does not define). A variable
that is present in the process environment, also with an empty value, is kept; a
variable that is absent takes the value of the file. A missing or unreadable file
is the file that defines no name, and the environment is left as it was. -/
def godotenvLoad (file : Environ) : Environ → Environ :=
  fun env k =>
    match env k with
    | some value => some value
    | none => file k

/-- Source `allEnvKeys` (config_test.go): every variable `Load` reads. -/
def allEnvKeys : List String :=
  [ "GOBLOG_PORT",
    "GOBLOG_BASE_URL",
    "GOBLOG_BLOG_TITLE",
    "GOBLOG_BLOG_DESCRIPTION",
    "GOBLOG_AUTHOR_NAME",
    "GOBLOG_ADMIN_USERNAME",
    "GOBLOG_ADMIN_PASSWORD",
    "GOBLOG_DB_PATH",
    "GOBLOG_UPLOAD_DIR",
    "GOBLOG_SESSION_SECRET",
    "GOBLOG_ENV" ]

/-- The configuration of `TestLoadDefaults`: every field at its default. -/
def defaultConfig : Config :=
  { Port := "8069",
    BaseURL := "http://localhost:8069",
    BlogTitle := "Manas's Blog",
    BlogDescription := "",
    AuthorName := "Manas",
    AdminUsername := "",
    AdminPassword := "",
    DBPath := "./goblog.db",
    UploadDir := "./uploads",
    SessionSecret := "",
    Env := "development" }

/-- The defaults with the port `7000`. -/
def overlayPortConfig : Config :=
  { Port := "7000",
    BaseURL := "http://localhost:8069",
    BlogTitle := "Manas's Blog",
    BlogDescription := "",
    AuthorName := "Manas",
    AdminUsername := "",
    AdminPassword := "",
    DBPath := "./goblog.db",
    UploadDir := "./uploads",
    SessionSecret := "",
    Env := "development" }

/-- The defaults with the admin credentials `admin` and `secret` in production mode. -/
def overlayCredentialsConfig : Config :=
  { Port := "8069",
    BaseURL := "http://localhost:8069",
    BlogTitle := "Manas's Blog",
    BlogDescription := "",
    AuthorName := "Manas",
    AdminUsername := "admin",
    AdminPassword := "secret",
    DBPath := "./goblog.db",
    UploadDir := "./uploads",
    SessionSecret := "",
    Env := "production" }

/-- The eleven fields of `Config`, in the order of the struct. -/
inductive Field where
  | Port
  | BaseURL
  | BlogTitle
  | BlogDescription
  | AuthorName
  | AdminUsername
  | AdminPassword
  | DBPath
  | UploadDir
  | SessionSecret
  | Env
deriving DecidableEq, Repr

/-- The variable that `Load` reads for a field (first argument of its `getEnv` call). -/
def Field.key : Field → String
  | .Port => "GOBLOG_PORT"
  | .BaseURL => "GOBLOG_BASE_URL"
  | .BlogTitle => "GOBLOG_BLOG_TITLE"
  | .BlogDescription => "GOBLOG_BLOG_DESCRIPTION"
  | .AuthorName => "GOBLOG_AUTHOR_NAME"
  | .AdminUsername => "GOBLOG_ADMIN_USERNAME"
  | .AdminPassword => "GOBLOG_ADMIN_PASSWORD"
  | .DBPath => "GOBLOG_DB_PATH"
  | .UploadDir => "GOBLOG_UPLOAD_DIR"
  | .SessionSecret => "GOBLOG_SESSION_SECRET"
  | .Env => "GOBLOG_ENV"

/-- The default of a field (second argument of its `getEnv` call in `Load`). -/
def Field.fallback : Field → String
  | .Port => "8069"
  | .BaseURL => "http://localhost:8069"
  | .BlogTitle => "Manas's Blog"
  | .BlogDescription => ""
  | .AuthorName => "Manas"
  | .AdminUsername => ""
  | .AdminPassword => ""
  | .DBPath => "./goblog.db"
  | .UploadDir => "./uploads"
  | .SessionSecret => ""
  | .Env => "development"

/-- Reading a field of a configuration. -/
def Config.get (c : Config) : Field → String
  | .Port => c.Port
  | .BaseURL => c.BaseURL
  | .BlogTitle => c.BlogTitle
  | .BlogDescription => c.BlogDescription
  | .AuthorName => c.AuthorName
  | .AdminUsername => c.AdminUsername
  | .AdminPassword => c.AdminPassword
  | .DBPath => c.DBPath
  | .UploadDir => c.UploadDir
  | .SessionSecret => c.SessionSecret
  | .Env => c.Env

/-- The configuration invariant of the data model: the mode is one of the two
allowed values, and production mode comes with both admin credentials. -/
def Config.Valid (c : Config) : Prop :=
  (c.Env = "development" ∨ c.Env = "production") ∧
    (c.Env = "production" → c.AdminUsername ≠ "" ∧ c.AdminPassword ≠ "")

instance (c : Config) : Decidable c.Valid := by
  unfold Config.Valid; infer_instance

/-- The environment of `TestLoadFromEnvVars`. -/
def testEnviron : Environ :=
  environOf
    [ ("GOBLOG_PORT", "9090"),
      ("GOBLOG_BASE_URL", "https://example.com"),
      ("GOBLOG_BLOG_TITLE", "Test Blog"),
      ("GOBLOG_BLOG_DESCRIPTION", "A test blog"),
      ("GOBLOG_AUTHOR_NAME", "Tester"),
      ("GOBLOG_ADMIN_USERNAME", "admin"),
      ("GOBLOG_ADMIN_PASSWORD", "secret"),
      ("GOBLOG_DB_PATH", "/tmp/test.db"),
      ("GOBLOG_UPLOAD_DIR", "/tmp/uploads"),
      ("GOBLOG_SESSION_SECRET", "mysecret"),
      ("GOBLOG_ENV", "production") ]

/-- The values of `TestLoadFromEnvVars`, by field. -/
def testValues : Field → String
  | .Port => "9090"
  | .BaseURL => "https://example.com"
  | .BlogTitle => "Test Blog"
  | .BlogDescription => "A test blog"
  | .AuthorName => "Tester"
  | .AdminUsername => "admin"
  | .AdminPassword => "secret"
  | .DBPath => "/tmp/test.db"
  | .UploadDir => "/tmp/uploads"
  | .SessionSecret => "mysecret"
  | .Env => "production"

/-- The configuration `TestLoadFromEnvVars` expects. -/
def testConfig : Config :=
  { Port := "9090",
    BaseURL := "https://example.com",
    BlogTitle := "Test Blog",
    BlogDescription := "A test blog",
    AuthorName := "Tester",
    AdminUsername := "admin",
    AdminPassword := "secret",
    DBPath := "/tmp/test.db",
    UploadDir := "/tmp/uploads",
    SessionSecret := "mysecret",
    Env := "production" }

/-- The values of `TestLoadFromEnvVars` with the mode replaced by `staging`. -/
def stagingValues (f : Field) : String :=
  if f = .Env then "staging" else testValues f

/-- The environment of `TestLoadFromEnvVars` with `GOBLOG_ENV=staging`. -/
def stagingEnviron : Environ :=
  environOf
    [ ("GOBLOG_PORT", "9090"),
      ("GOBLOG_BASE_URL", "https://example.com"),
      ("GOBLOG_BLOG_TITLE", "Test Blog"),
      ("GOBLOG_BLOG_DESCRIPTION", "A test blog"),
      ("GOBLOG_AUTHOR_NAME", "Tester"),
      ("GOBLOG_ADMIN_USERNAME", "admin"),
      ("GOBLOG_ADMIN_PASSWORD", "secret"),
      ("GOBLOG_DB_PATH", "/tmp/test.db"),
      ("GOBLOG_UPLOAD_DIR", "/tmp/uploads"),
      ("GOBLOG_SESSION_SECRET", "mysecret"),
      ("GOBLOG_ENV", "staging") ]

/-- The environment of `TestLoadPartialEnvVars`. -/
def partialEnviron : Environ :=
  environOf [("GOBLOG_PORT", "3000"), ("GOBLOG_BLOG_TITLE", "Custom Blog")]

/-- The configuration `TestLoadPartialEnvVars` expects: two fields overridden,
the others at their defaults. -/
def partialConfig : Config :=
  { Port := "3000",
    BaseURL := "http://localhost:8069",
    BlogTitle := "Custom Blog",
    BlogDescription := "",
    AuthorName := "Manas",
    AdminUsername := "",
    AdminPassword := "",
    DBPath := "./goblog.db",
    UploadDir := "./uploads",
    SessionSecret := "",
    Env := "development" }

/-- The defaults with only the port overridden. -/
def portConfig : Config :=
  { Port := "3000",
    BaseURL := "http://localhost:8069",
    BlogTitle := "Manas's Blog",
    BlogDescription := "",
    AuthorName := "Manas",
    AdminUsername := "",
    AdminPassword := "",
    DBPath := "./goblog.db",
    UploadDir := "./uploads",
    SessionSecret := "",
    Env := "development" }

/-- The `%q` form of a string of printable characters that holds neither a double
quote nor a backslash: the string between double quotes. -/
def plainQuote (s : String) : String :=
  "\"" ++ s ++ "\""

/-- The struct literal of `Load`: every field resolved through `getEnv`. -/
def resolved (env : Environ) : Config :=
  { Port := getEnv env "GOBLOG_PORT" "8069",
    BaseURL := getEnv env "GOBLOG_BASE_URL" "http://localhost:8069",
    BlogTitle := getEnv env "GOBLOG_BLOG_TITLE" "Manas's Blog",
    BlogDescription := getEnv env "GOBLOG_BLOG_DESCRIPTION" "",
    AuthorName := getEnv env "GOBLOG_AUTHOR_NAME" "Manas",
    AdminUsername := getEnv env "GOBLOG_ADMIN_USERNAME" "",
    AdminPassword := getEnv env "GOBLOG_ADMIN_PASSWORD" "",
    DBPath := getEnv env "GOBLOG_DB_PATH" "./goblog.db",
    UploadDir := getEnv env "GOBLOG_UPLOAD_DIR" "./uploads",
    SessionSecret := getEnv env "GOBLOG_SESSION_SECRET" "",
    Env := getEnv env "GOBLOG_ENV" "development" }

/-! ## Lookup lemmas -/

theorem Getenv_of_none {env : Environ} {key : String} (h : env key = none) :
    Getenv env key = "" := by
  simp [Getenv, h]

theorem Getenv_of_some {env : Environ} {key value : String} (h : env key = some value) :
    Getenv env key = value := by
  simp [Getenv, h]

theorem getEnv_of_none {env : Environ} {key : String} (fallback : String)
    (h : env key = none) : getEnv env key fallback = fallback := by
  simp [getEnv, Getenv_of_none h]

theorem getEnv_of_empty {env : Environ} {key : String} (fallback : String)
    (h : env key = some "") : getEnv env key fallback = fallback := by
  simp [getEnv, Getenv_of_some h]

theorem getEnv_of_set {env : Environ} {key value : String} (fallback : String)
    (h : env key = some value) (hne : value ≠ "") : getEnv env key fallback = value := by
  simp [getEnv, Getenv_of_some h, hne]

theorem getEnv_eq_of_removed {e e2 : Environ} {key : String} (fallback : String)
    (h : e2 key = e key ∨ (e key = some "" ∧ e2 key = none)) :
    getEnv e2 key fallback = getEnv e key fallback := by
  rcases h with h | ⟨h1, h2⟩
  · simp [getEnv, Getenv, h]
  · rw [getEnv_of_empty fallback h1, getEnv_of_none fallback h2]

theorem getEnv_eq_of_agree {e e2 : Environ} {key : String} (fallback : String)
    (h : e key = e2 key) : getEnv e key fallback = getEnv e2 key fallback := by
  simp [getEnv, Getenv, h]

theorem getEnv_ne_empty (env : Environ) (key : String) {fallback : String}
    (h : fallback ≠ "") : getEnv env key fallback ≠ "" := by
  unfold getEnv
  by_cases hv : Getenv env key = ""
  · simpa [hv] using h
  · simp [hv]

theorem invalidEnvFatal_message (quote : String → String) (v : String) :
    (invalidEnvFatal v).message quote =
      "invalid GOBLOG_ENV value " ++ quote v ++ ": must be \"development\" or \"production\"" := by
  rfl

theorem godotenvLoad_of_some {file env : Environ} {key value : String}
    (h : env key = some value) : godotenvLoad file env key = some value := by
  simp [godotenvLoad, h]

theorem godotenvLoad_of_none {file env : Environ} {key : String}
    (h : env key = none) : godotenvLoad file env key = file key := by
  simp [godotenvLoad, h]

theorem godotenvLoad_congr {file env env2 : Environ} {key : String}
    (h : env key = env2 key) : godotenvLoad file env key = godotenvLoad file env2 key := by
  simp [godotenvLoad, h]

/-! ## The shape of `Load` -/

theorem resolved_get (env : Environ) (f : Field) :
    (resolved env).get f = getEnv env f.key f.fallback := by
  cases f <;> rfl

theorem Load_unfold (overlay : Environ → Environ) (env : Environ) :
    Load overlay env =
      if (resolved (overlay env)).Env ≠ "development" ∧
          (resolved (overlay env)).Env ≠ "production" then
        .error (invalidEnvFatal (resolved (overlay env)).Env)
      else if (resolved (overlay env)).Env = "production" ∧
          ((resolved (overlay env)).AdminUsername = "" ∨
            (resolved (overlay env)).AdminPassword = "") then
        .error missingCredentialsFatal
      else .ok (resolved (overlay env)) := rfl

theorem Load_of_invalid {overlay : Environ → Environ} {env : Environ}
    (hd : (resolved (overlay env)).Env ≠ "development")
    (hp : (resolved (overlay env)).Env ≠ "production") :
    Load overlay env = .error (invalidEnvFatal (resolved (overlay env)).Env) := by
  rw [Load_unfold, if_pos ⟨hd, hp⟩]

theorem Load_of_development {overlay : Environ → Environ} {env : Environ}
    (hd : (resolved (overlay env)).Env = "development") :
    Load overlay env = .ok (resolved (overlay env)) := by
  rw [Load_unfold, if_neg (by simp [hd]), if_neg (by simp [hd])]

theorem Load_of_production_missing {overlay : Environ → Environ} {env : Environ}
    (hp : (resolved (overlay env)).Env = "production")
    (hc : (resolved (overlay env)).AdminUsername = "" ∨
      (resolved (overlay env)).AdminPassword = "") :
    Load overlay env = .error missingCredentialsFatal := by
  rw [Load_unfold, if_neg (by simp [hp]), if_pos ⟨hp, hc⟩]

theorem Load_of_production {overlay : Environ → Environ} {env : Environ}
    (hp : (resolved (overlay env)).Env = "production")
    (hu : (resolved (overlay env)).AdminUsername ≠ "")
    (hw : (resolved (overlay env)).AdminPassword ≠ "") :
    Load overlay env = .ok (resolved (overlay env)) := by
  rw [Load_unfold, if_neg (by simp [hp]), if_neg (by simp [hu, hw])]

theorem Load_ok_iff {overlay : Environ → Environ} {env : Environ} {cfg : Config} :
    Load overlay env = .ok cfg ↔
      cfg = resolved (overlay env) ∧ (resolved (overlay env)).Valid := by
  rw [Load_unfold]
  unfold Config.Valid
  by_cases hd : (resolved (overlay env)).Env = "development"
  · have hp : (resolved (overlay env)).Env ≠ "production" := by rw [hd]; decide
    simp [hd, eq_comm]
  · by_cases hp : (resolved (overlay env)).Env = "production"
    · by_cases hu : (resolved (overlay env)).AdminUsername = ""
      · simp [hp, hu]
      · by_cases hw : (resolved (overlay env)).AdminPassword = ""
        · simp [hp, hw]
        · simp [hp, hu, hw, eq_comm]
    · simp [hd, hp]

/-! ## Properties of `Load` and `getEnv` -/

/-- When all eleven variables are unset in the environment the lookups read,
`Load` returns the defaults. -/
theorem Load_defaults_of_overlay (overlay : Environ → Environ) (env : Environ)
    (h : ∀ k ∈ allEnvKeys, overlay env k = none ∨ overlay env k = some "") :
    Load overlay env = .ok defaultConfig := by
  have hk : ∀ k ∈ allEnvKeys, ∀ fb, getEnv (overlay env) k fb = fb := by
    intro k hk fb
    rcases h k hk with h1 | h1
    · exact getEnv_of_none fb h1
    · exact getEnv_of_empty fb h1
  simp only [allEnvKeys, List.forall_mem_cons, List.mem_singleton, forall_eq] at hk
  obtain ⟨h1, h2, h3, h4, h5, h6, h7, h8, h9, h10, h11⟩ := hk
  simp [Load, defaultConfig, h1, h2, h3, h4, h5, h6, h7, h8, h9, h10, h11]

/-- C1, as stated, fails: with all eleven variables unset in the process
environment and a `.env` file holding `GOBLOG_PORT=7000`, `Load` returns the port
`7000`, not the default `8069`. -/
theorem Load_defaults_counterexample :
    (∀ k ∈ allEnvKeys, emptyEnviron k = none) ∧
    Load (godotenvLoad (environOf [("GOBLOG_PORT", "7000")])) emptyEnviron =
      .ok overlayPortConfig ∧
    Load (godotenvLoad (environOf [("GOBLOG_PORT", "7000")])) emptyEnviron ≠
      .ok defaultConfig :=
  ⟨fun _ _ => rfl, by decide, by decide⟩

/-- C1, amended: when all eleven `GOBLOG_*` variables are unset in the process
environment and the `.env` file is absent or gives none of them a non-empty value,
`Load` succeeds and returns exactly the documented defaults. -/
theorem Load_defaults (file env : Environ)
    (h : ∀ k ∈ allEnvKeys, env k = none)
    (hf : ∀ k ∈ allEnvKeys, file k = none ∨ file k = some "") :
    Load (godotenvLoad file) env = .ok defaultConfig := by
  apply Load_defaults_of_overlay
  intro k hk
  rw [godotenvLoad_of_none (h k hk)]
  exact hf k hk

theorem Load_defaults_witness :
    Load (godotenvLoad (environOf [("GOBLOG_ENV", ""), ("OTHER_APP_PORT", "7000")]))
      emptyEnviron = .ok defaultConfig :=
  Load_defaults (environOf [("GOBLOG_ENV", ""), ("OTHER_APP_PORT", "7000")]) emptyEnviron
    (fun _ _ => rfl) (by decide)

/-- In production mode `Load` is fatal exactly when a credential is unset or empty
in the environment the lookups read. -/
theorem Load_production_of_overlay (overlay : Environ → Environ) (env : Environ)
    (hprod : overlay env "GOBLOG_ENV" = some "production") :
    ((overlay env "GOBLOG_ADMIN_USERNAME" = none ∨
        overlay env "GOBLOG_ADMIN_USERNAME" = some "" ∨
        overlay env "GOBLOG_ADMIN_PASSWORD" = none ∨
        overlay env "GOBLOG_ADMIN_PASSWORD" = some "") →
      Load overlay env = .error missingCredentialsFatal) ∧
    (∀ u p : String,
      overlay env "GOBLOG_ADMIN_USERNAME" = some u → u ≠ "" →
      overlay env "GOBLOG_ADMIN_PASSWORD" = some p → p ≠ "" →
      ∃ cfg, Load overlay env = .ok cfg ∧
        cfg.AdminUsername = u ∧ cfg.AdminPassword = p ∧ cfg.Env = "production") := by
  have hp : (resolved (overlay env)).Env = "production" :=
    getEnv_of_set "development" hprod (by decide)
  constructor
  · intro h
    apply Load_of_production_missing hp
    rcases h with h | h | h | h
    · exact Or.inl (getEnv_of_none "" h)
    · exact Or.inl (getEnv_of_empty "" h)
    · exact Or.inr (getEnv_of_none "" h)
    · exact Or.inr (getEnv_of_empty "" h)
  · intro u p hu hune hw hwne
    have hu2 : (resolved (overlay env)).AdminUsername = u := getEnv_of_set "" hu hune
    have hw2 : (resolved (overlay env)).AdminPassword = p := getEnv_of_set "" hw hwne
    exact ⟨resolved (overlay env),
      Load_of_production hp (by rw [hu2]; exact hune) (by rw [hw2]; exact hwne), hu2, hw2, hp⟩

/-- C2, as stated, fails: with `GOBLOG_ENV=production` and both admin credentials
unset in the process environment, a `.env` file that holds them makes `Load`
succeed where the statement has a fatal exit. -/
theorem Load_production_credentials_counterexample :
    environOf [("GOBLOG_ENV", "production")] "GOBLOG_ENV" = some "production" ∧
    environOf [("GOBLOG_ENV", "production")] "GOBLOG_ADMIN_USERNAME" = none ∧
    environOf [("GOBLOG_ENV", "production")] "GOBLOG_ADMIN_PASSWORD" = none ∧
    Load (godotenvLoad (environOf [("GOBLOG_ADMIN_USERNAME", "admin"),
        ("GOBLOG_ADMIN_PASSWORD", "secret")])) (environOf [("GOBLOG_ENV", "production")]) =
      .ok overlayCredentialsConfig ∧
    Load (godotenvLoad (environOf [("GOBLOG_ADMIN_USERNAME", "admin"),
        ("GOBLOG_ADMIN_PASSWORD", "secret")])) (environOf [("GOBLOG_ENV", "production")]) ≠
      .error missingCredentialsFatal :=
  ⟨by decide, by decide, by decide, by decide, by decide⟩

/-- C2, amended: with `GOBLOG_ENV` set to `production`, `Load` ends fatally when the
admin username or the admin password is set to the empty string, or is unset and
the `.env` file is absent or gives it no non-empty value. Otherwise, each of the
two being set to a non-empty value or unset and given a non-empty value by the
`.env` file, `Load` succeeds with a configuration holding those two values and the
mode `production`. -/
theorem Load_production_credentials (file env : Environ)
    (hprod : env "GOBLOG_ENV" = some "production") :
    ((env "GOBLOG_ADMIN_USERNAME" = some "" ∨
        env "GOBLOG_ADMIN_PASSWORD" = some "" ∨
        (env "GOBLOG_ADMIN_USERNAME" = none ∧
          (file "GOBLOG_ADMIN_USERNAME" = none ∨ file "GOBLOG_ADMIN_USERNAME" = some "")) ∨
        (env "GOBLOG_ADMIN_PASSWORD" = none ∧
          (file "GOBLOG_ADMIN_PASSWORD" = none ∨ file "GOBLOG_ADMIN_PASSWORD" = some ""))) →
      Load (godotenvLoad file) env = .error missingCredentialsFatal) ∧
    (∀ u p : String,
      (env "GOBLOG_ADMIN_USERNAME" = some u ∨
        (env "GOBLOG_ADMIN_USERNAME" = none ∧ file "GOBLOG_ADMIN_USERNAME" = some u)) →
      u ≠ "" →
      (env "GOBLOG_ADMIN_PASSWORD" = some p ∨
        (env "GOBLOG_ADMIN_PASSWORD" = none ∧ file "GOBLOG_ADMIN_PASSWORD" = some p)) →
      p ≠ "" →
      ∃ cfg, Load (godotenvLoad file) env = .ok cfg ∧
        cfg.AdminUsername = u ∧ cfg.AdminPassword = p ∧ cfg.Env = "production") := by
  have hgen := Load_production_of_overlay (godotenvLoad file) env (godotenvLoad_of_some hprod)
  constructor
  · intro h
    apply hgen.1
    rcases h with h | h | ⟨h, hf⟩ | ⟨h, hf⟩
    · exact Or.inr (Or.inl (godotenvLoad_of_some h))
    · exact Or.inr (Or.inr (Or.inr (godotenvLoad_of_some h)))
    · rw [godotenvLoad_of_none h]
      rcases hf with hf | hf
      · exact Or.inl hf
      · exact Or.inr (Or.inl hf)
    · rw [godotenvLoad_of_none h]
      rcases hf with hf | hf
      · exact Or.inr (Or.inr (Or.inl hf))
      · exact Or.inr (Or.inr (Or.inr hf))
  · intro u p hu hune hw hwne
    apply hgen.2 u p _ hune _ hwne
    · rcases hu with hu | ⟨hu, hf⟩
      · exact godotenvLoad_of_some hu
      · rw [godotenvLoad_of_none hu]; exact hf
    · rcases hw with hw | ⟨hw, hf⟩
      · exact godotenvLoad_of_some hw
      · rw [godotenvLoad_of_none hw]; exact hf

theorem Load_production_credentials_witness :
    Load (godotenvLoad (environOf [("GOBLOG_ADMIN_USERNAME", "admin")]))
        (environOf [("GOBLOG_ENV", "production")]) = .error missingCredentialsFatal ∧
      ∃ cfg, Load (godotenvLoad emptyEnviron) testEnviron = .ok cfg ∧
        cfg.AdminUsername = "admin" ∧ cfg.AdminPassword = "secret" ∧ cfg.Env = "production" :=
  ⟨(Load_production_credentials (environOf [("GOBLOG_ADMIN_USERNAME", "admin")])
      (environOf [("GOBLOG_ENV", "production")]) (by decide)).1
      (Or.inr (Or.inr (Or.inr ⟨by decide, Or.inl (by decide)⟩))),
    (Load_production_credentials emptyEnviron testEnviron (by decide)).2 "admin" "secret"
      (Or.inl (by decide)) (by decide) (Or.inl (by decide)) (by decide)⟩

/-- C3: when `GOBLOG_ENV` is set to a non-empty value other than exactly
`development` or `production`, `Load` ends fatally and returns no configuration,
whatever the other ten variables hold. -/
theorem Load_invalid_mode_fatal (overlay : Environ → Environ) (env : Environ) (v : String)
    (hset : overlay env "GOBLOG_ENV" = some v) (hne : v ≠ "")
    (hd : v ≠ "development") (hp : v ≠ "production") :
    Load overlay env = .error (invalidEnvFatal v) ∧ ∀ cfg, Load overlay env ≠ .ok cfg := by
  have hv : (resolved (overlay env)).Env = v := getEnv_of_set "development" hset hne
  have hl : Load overlay env = .error (invalidEnvFatal v) := by
    have := @Load_of_invalid overlay env (by rw [hv]; exact hd)
      (by rw [hv]; exact hp)
    rw [this, hv]
  refine ⟨hl, fun cfg h => ?_⟩
  rw [hl] at h
  cases h

theorem Load_invalid_mode_fatal_witness :
    (Load noOverlay (environOf [("GOBLOG_ENV", "staging")]) = .error (invalidEnvFatal "staging") ∧
      ∀ cfg, Load noOverlay (environOf [("GOBLOG_ENV", "staging")]) ≠ .ok cfg) ∧
    (Load noOverlay (Setenv testEnviron "GOBLOG_ENV" "Production") =
        .error (invalidEnvFatal "Production") ∧
      ∀ cfg, Load noOverlay (Setenv testEnviron "GOBLOG_ENV" "Production") ≠ .ok cfg) :=
  ⟨Load_invalid_mode_fatal noOverlay (environOf [("GOBLOG_ENV", "staging")]) "staging"
      (by decide) (by decide) (by decide) (by decide),
    Load_invalid_mode_fatal noOverlay (Setenv testEnviron "GOBLOG_ENV" "Production") "Production"
      (by decide) (by decide) (by decide) (by decide)⟩

/-- C4, as stated, fails: with all eleven variables set to distinct non-empty
values, among them `GOBLOG_ENV=staging`, `Load` ends fatally and returns no
configuration. -/
theorem Load_verbatim_counterexample :
    (∀ f : Field, noOverlay stagingEnviron f.key = some (stagingValues f)) ∧
    (∀ f : Field, stagingValues f ≠ "") ∧
    Function.Injective stagingValues ∧
    Load noOverlay stagingEnviron = .error (invalidEnvFatal "staging") ∧
    ¬ ∃ cfg, Load noOverlay stagingEnviron = .ok cfg ∧ ∀ f, cfg.get f = stagingValues f := by
  have hl : Load noOverlay stagingEnviron = .error (invalidEnvFatal "staging") := by decide
  refine ⟨?_, ?_, ?_, hl, ?_⟩
  · intro f; cases f <;> decide
  · intro f; cases f <;> decide
  · intro a b h
    cases a <;> cases b <;> first | rfl | (exfalso; revert h; decide)
  · rintro ⟨cfg, hc, _⟩
    rw [hl] at hc
    cases hc

/-- C4, amended: with all eleven variables set to non-empty values, `Load` returns
a configuration in which every field is the value of its own variable, provided
the value of `GOBLOG_ENV` is exactly `development` or `production`; for any other
value of `GOBLOG_ENV` it ends fatally. -/
theorem Load_verbatim (overlay : Environ → Environ) (env : Environ) (vals : Field → String)
    (hset : ∀ f : Field, overlay env f.key = some (vals f))
    (hne : ∀ f : Field, vals f ≠ "") :
    ((vals .Env = "development" ∨ vals .Env = "production") →
      ∃ cfg, Load overlay env = .ok cfg ∧ ∀ f, cfg.get f = vals f) ∧
    (vals .Env ≠ "development" → vals .Env ≠ "production" →
      Load overlay env = .error (invalidEnvFatal (vals .Env))) := by
  have hget : ∀ f, (resolved (overlay env)).get f = vals f := fun f => by
    rw [resolved_get]; exact getEnv_of_set _ (hset f) (hne f)
  have hE : (resolved (overlay env)).Env = vals .Env := hget .Env
  have hU : (resolved (overlay env)).AdminUsername = vals .AdminUsername := hget .AdminUsername
  have hW : (resolved (overlay env)).AdminPassword = vals .AdminPassword := hget .AdminPassword
  constructor
  · rintro (h | h)
    · exact ⟨_, Load_of_development (hE.trans h), hget⟩
    · exact ⟨_, Load_of_production (hE.trans h) (by rw [hU]; exact hne _)
        (by rw [hW]; exact hne _), hget⟩
  · intro hd hp
    have := @Load_of_invalid overlay env (by rw [hE]; exact hd)
      (by rw [hE]; exact hp)
    rw [this, hE]

theorem Load_verbatim_witness :
    ∃ cfg, Load noOverlay testEnviron = .ok cfg ∧ ∀ f, cfg.get f = testValues f :=
  (Load_verbatim noOverlay testEnviron testValues (fun f => by cases f <;> decide)
    (fun f => by cases f <;> decide)).1 (Or.inr rfl)

/-- Two runs whose environments, as the lookups read them, differ only in that
empty-valued variables of the first are unset in the second have the same outcome. -/
theorem Load_removed_of_overlay (overlay : Environ → Environ) (env env2 : Environ)
    (h : ∀ k, overlay env2 k = overlay env k ∨
      (overlay env k = some "" ∧ (overlay env2 k = none ∨ overlay env2 k = some ""))) :
    Load overlay env2 = Load overlay env := by
  have hg : ∀ k fb, getEnv (overlay env2) k fb = getEnv (overlay env) k fb := by
    intro k fb
    rcases h k with h1 | ⟨h1, h2 | h2⟩
    · exact getEnv_eq_of_removed fb (Or.inl h1)
    · exact getEnv_eq_of_removed fb (Or.inr ⟨h1, h2⟩)
    · rw [getEnv_of_empty fb h1, getEnv_of_empty fb h2]
  have hr : resolved (overlay env2) = resolved (overlay env) := by
    simp only [resolved, hg]
  rw [Load_unfold, Load_unfold, hr]

/-- C5, as stated, fails in its second half: with `GOBLOG_PORT` set to the empty
string and a `.env` file holding `GOBLOG_PORT=7000`, `Load` returns the default port
`8069`, and on the same environment with `GOBLOG_PORT` removed it returns the port
`7000`. -/
theorem getEnv_empty_as_unset_counterexample :
    environOf [("GOBLOG_PORT", "")] "GOBLOG_PORT" = some "" ∧
    Load (godotenvLoad (environOf [("GOBLOG_PORT", "7000")]))
      (environOf [("GOBLOG_PORT", "")]) = .ok defaultConfig ∧
    Load (godotenvLoad (environOf [("GOBLOG_PORT", "7000")]))
      (Unsetenv (environOf [("GOBLOG_PORT", "")]) "GOBLOG_PORT") = .ok overlayPortConfig ∧
    Load (godotenvLoad (environOf [("GOBLOG_PORT", "7000")]))
        (Unsetenv (environOf [("GOBLOG_PORT", "")]) "GOBLOG_PORT") ≠
      Load (godotenvLoad (environOf [("GOBLOG_PORT", "7000")]))
        (environOf [("GOBLOG_PORT", "")]) :=
  ⟨by decide, by decide, by decide, by decide⟩

/-- C5, amended: `getEnv` returns the fallback both when the variable is unset and
when it is set to the empty string, and the value of the variable otherwise; hence
`Load` on an environment and `Load` on the same environment with empty-valued
variables removed have the same outcome (the same configuration or the same fatal
exit), provided the `.env` file is absent or gives the removed variables no
non-empty value. -/
theorem getEnv_empty_as_unset :
    (∀ (env : Environ) (key fallback : String),
      (env key = none → getEnv env key fallback = fallback) ∧
      (env key = some "" → getEnv env key fallback = fallback) ∧
      (∀ v, env key = some v → v ≠ "" → getEnv env key fallback = v)) ∧
    (∀ (file env env2 : Environ),
      (∀ k, env2 k = env k ∨
        (env k = some "" ∧ env2 k = none ∧ (file k = none ∨ file k = some ""))) →
      Load (godotenvLoad file) env2 = Load (godotenvLoad file) env) ∧
    (∀ (file env : Environ) (key : String), env key = some "" →
      (file key = none ∨ file key = some "") →
      Load (godotenvLoad file) (Unsetenv env key) = Load (godotenvLoad file) env) := by
  have hmain : ∀ (file env env2 : Environ),
      (∀ k, env2 k = env k ∨
        (env k = some "" ∧ env2 k = none ∧ (file k = none ∨ file k = some ""))) →
      Load (godotenvLoad file) env2 = Load (godotenvLoad file) env := by
    intro file env env2 h
    apply Load_removed_of_overlay
    intro k
    rcases h k with h1 | ⟨h1, h2, h3⟩
    · exact Or.inl (godotenvLoad_congr h1)
    · refine Or.inr ⟨godotenvLoad_of_some h1, ?_⟩
      rw [godotenvLoad_of_none h2]
      exact h3
  refine ⟨fun env key fallback => ⟨getEnv_of_none fallback, getEnv_of_empty fallback,
    fun v h hv => getEnv_of_set fallback h hv⟩, hmain, fun file env key h hf => ?_⟩
  apply hmain
  intro k
  by_cases hk : k = key
  · subst hk; exact Or.inr ⟨h, by simp [Unsetenv], hf⟩
  · exact Or.inl (by simp [Unsetenv, hk])

theorem getEnv_empty_as_unset_witness :
    getEnv (environOf [("TEST_CONFIG_KEY_EMPTY", "")]) "TEST_CONFIG_KEY_EMPTY" "default" =
        "default" ∧
      Load (godotenvLoad (environOf [("GOBLOG_PORT", "7000")]))
          (Unsetenv (environOf [("GOBLOG_PORT", ""), ("GOBLOG_ENV", "")]) "GOBLOG_ENV") =
        Load (godotenvLoad (environOf [("GOBLOG_PORT", "7000")]))
          (environOf [("GOBLOG_PORT", ""), ("GOBLOG_ENV", "")]) :=
  ⟨(getEnv_empty_as_unset.1 (environOf [("TEST_CONFIG_KEY_EMPTY", "")])
      "TEST_CONFIG_KEY_EMPTY" "default").2.1 (by decide),
    getEnv_empty_as_unset.2.2 (environOf [("GOBLOG_PORT", "7000")])
      (environOf [("GOBLOG_PORT", ""), ("GOBLOG_ENV", "")]) "GOBLOG_ENV" (by decide)
      (Or.inl (by decide))⟩

/-- In a successful run every field is determined by its own variable, as the
lookups read it. -/
theorem Load_fields_of_overlay (overlay : Environ → Environ) (env : Environ) (cfg : Config)
    (h : Load overlay env = .ok cfg) :
    (∀ f : Field,
      (∀ v, overlay env f.key = some v → v ≠ "" → cfg.get f = v) ∧
      ((overlay env f.key = none ∨ overlay env f.key = some "") → cfg.get f = f.fallback)) ∧
    (∀ (env2 : Environ) (cfg2 : Config), Load overlay env2 = .ok cfg2 →
      ∀ f : Field, overlay env2 f.key = overlay env f.key → cfg2.get f = cfg.get f) ∧
    (∀ (env2 : Environ) (cfg2 : Config) (k v : String), Load overlay env2 = .ok cfg2 →
      (∀ x, overlay env2 x = Setenv (overlay env) k v x) →
      ∀ f : Field, f.key ≠ k → cfg2.get f = cfg.get f) := by
  have hc : cfg = resolved (overlay env) := (Load_ok_iff.1 h).1
  have hagree : ∀ (env2 : Environ) (cfg2 : Config), Load overlay env2 = .ok cfg2 →
      ∀ f : Field, overlay env2 f.key = overlay env f.key → cfg2.get f = cfg.get f := by
    intro env2 cfg2 h2 f hf
    rw [(Load_ok_iff.1 h2).1, hc, resolved_get, resolved_get]
    exact getEnv_eq_of_agree _ hf
  refine ⟨fun f => ⟨fun v hv hne => ?_, fun hu => ?_⟩, hagree, ?_⟩
  · rw [hc, resolved_get]; exact getEnv_of_set _ hv hne
  · rw [hc, resolved_get]
    rcases hu with hu | hu
    · exact getEnv_of_none _ hu
    · exact getEnv_of_empty _ hu
  · intro env2 cfg2 k v h2 hset f hf
    apply hagree env2 cfg2 h2 f
    rw [hset, Setenv, if_neg hf]

/-- C6, as stated, fails: with `GOBLOG_PORT` unset in the process environment and a
`.env` file holding `GOBLOG_PORT=7000`, `Load` succeeds and the field `Port` holds
`7000`, not its documented default `8069`. -/
theorem Load_fields_independent_counterexample :
    emptyEnviron Field.Port.key = none ∧
    Load (godotenvLoad (environOf [("GOBLOG_PORT", "7000")])) emptyEnviron =
      .ok overlayPortConfig ∧
    overlayPortConfig.get Field.Port = "7000" ∧
    overlayPortConfig.get Field.Port ≠ Field.Port.fallback :=
  ⟨rfl, by decide, rfl, by decide⟩

/-- C6, amended: in a successful run every field is determined by its own variable
alone. A field whose variable is set to a non-empty value holds that value; a field
whose variable is set to the empty string, or is unset while the `.env` file is
absent or gives it no non-empty value, holds its documented default; a field whose
variable is unset and given a non-empty value by the `.env` file holds that value.
Two successful runs agree on every field whose variable they agree on; in
particular setting one variable changes no other field. -/
theorem Load_fields_independent (file env : Environ) (cfg : Config)
    (h : Load (godotenvLoad file) env = .ok cfg) :
    (∀ f : Field,
      (∀ v, env f.key = some v → v ≠ "" → cfg.get f = v) ∧
      (env f.key = some "" → cfg.get f = f.fallback) ∧
      (env f.key = none → (file f.key = none ∨ file f.key = some "") →
        cfg.get f = f.fallback) ∧
      (∀ v, env f.key = none → file f.key = some v → v ≠ "" → cfg.get f = v)) ∧
    (∀ (env2 : Environ) (cfg2 : Config), Load (godotenvLoad file) env2 = .ok cfg2 →
      ∀ f : Field, env2 f.key = env f.key → cfg2.get f = cfg.get f) ∧
    (∀ (env2 : Environ) (cfg2 : Config) (k v : String),
      Load (godotenvLoad file) env2 = .ok cfg2 →
      (∀ x, env2 x = Setenv env k v x) →
      ∀ f : Field, f.key ≠ k → cfg2.get f = cfg.get f) := by
  obtain ⟨hval, hagree, _⟩ := Load_fields_of_overlay (godotenvLoad file) env cfg h
  refine ⟨fun f => ⟨fun v hv hne => ?_, fun he => ?_, fun hn hf => ?_, fun v hn hf hne => ?_⟩,
    fun env2 cfg2 h2 f hf => hagree env2 cfg2 h2 f (godotenvLoad_congr hf), ?_⟩
  · exact (hval f).1 v (godotenvLoad_of_some hv) hne
  · exact (hval f).2 (Or.inr (godotenvLoad_of_some he))
  · apply (hval f).2
    rw [godotenvLoad_of_none hn]
    exact hf
  · apply (hval f).1 v _ hne
    rw [godotenvLoad_of_none hn]
    exact hf
  · intro env2 cfg2 k v h2 hset f hf
    apply hagree env2 cfg2 h2 f
    apply godotenvLoad_congr
    rw [hset, Setenv, if_neg hf]

theorem Load_fields_independent_witness :
    (∀ f : Field,
      (∀ v, partialEnviron f.key = some v → v ≠ "" → partialConfig.get f = v) ∧
      (partialEnviron f.key = some "" → partialConfig.get f = f.fallback) ∧
      (partialEnviron f.key = none → (emptyEnviron f.key = none ∨ emptyEnviron f.key = some "") →
        partialConfig.get f = f.fallback) ∧
      (∀ v, partialEnviron f.key = none → emptyEnviron f.key = some v → v ≠ "" →
        partialConfig.get f = v)) ∧
    (∀ f : Field, f.key ≠ "GOBLOG_PORT" → portConfig.get f = defaultConfig.get f) :=
  ⟨(Load_fields_independent emptyEnviron partialEnviron partialConfig (by decide)).1,
    (Load_fields_independent emptyEnviron emptyEnviron defaultConfig (by decide)).2.2
      (Setenv emptyEnviron "GOBLOG_PORT" "3000") portConfig "GOBLOG_PORT" "3000" (by decide)
      (fun _ => rfl)⟩

/-- C7: every configuration `Load` returns satisfies the invariant: its mode is
exactly `development` or `production`, and in production mode the admin username
and the admin password are both non-empty. -/
theorem Load_invariant (overlay : Environ → Environ) (env : Environ) (cfg : Config)
    (h : Load overlay env = .ok cfg) :
    (cfg.Env = "development" ∨ cfg.Env = "production") ∧
      (cfg.Env = "production" → cfg.AdminUsername ≠ "" ∧ cfg.AdminPassword ≠ "") := by
  obtain ⟨hc, hv⟩ := Load_ok_iff.1 h
  rw [hc]
  exact hv

theorem Load_invariant_witness :
    (testConfig.Env = "development" ∨ testConfig.Env = "production") ∧
      (testConfig.Env = "production" →
        testConfig.AdminUsername ≠ "" ∧ testConfig.AdminPassword ≠ "") :=
  Load_invariant noOverlay testEnviron testConfig (by decide)

/-- The two fatal exits of `Load`, and what its success depends on, in terms of
the environment the lookups read. -/
theorem Load_error_paths_of_overlay (overlay : Environ → Environ) :
    (∀ (env : Environ) (f : Fatal), Load overlay env = .error f →
      (f = invalidEnvFatal (getEnv (overlay env) "GOBLOG_ENV" "development") ∧
          getEnv (overlay env) "GOBLOG_ENV" "development" ≠ "development" ∧
          getEnv (overlay env) "GOBLOG_ENV" "development" ≠ "production") ∨
        (f = missingCredentialsFatal ∧
          getEnv (overlay env) "GOBLOG_ENV" "development" = "production" ∧
          (getEnv (overlay env) "GOBLOG_ADMIN_USERNAME" "" = "" ∨
            getEnv (overlay env) "GOBLOG_ADMIN_PASSWORD" "" = ""))) ∧
    (∀ env env2 : Environ,
      overlay env "GOBLOG_ENV" = overlay env2 "GOBLOG_ENV" →
      overlay env "GOBLOG_ADMIN_USERNAME" = overlay env2 "GOBLOG_ADMIN_USERNAME" →
      overlay env "GOBLOG_ADMIN_PASSWORD" = overlay env2 "GOBLOG_ADMIN_PASSWORD" →
      ((∃ cfg, Load overlay env = .ok cfg) ↔ (∃ cfg, Load overlay env2 = .ok cfg))) ∧
    (∀ env : Environ,
      (overlay env "GOBLOG_ENV" = none ∨ overlay env "GOBLOG_ENV" = some "" ∨
        overlay env "GOBLOG_ENV" = some "development") →
      ∃ cfg, Load overlay env = .ok cfg) := by
  refine ⟨fun env f h => ?_, fun env env2 hE hU hW => ?_, fun env h => ?_⟩
  · rw [Load_unfold] at h
    by_cases h1 : (resolved (overlay env)).Env ≠ "development" ∧
        (resolved (overlay env)).Env ≠ "production"
    · rw [if_pos h1] at h
      injection h with h
      exact Or.inl ⟨h.symm, h1.1, h1.2⟩
    · rw [if_neg h1] at h
      by_cases h2 : (resolved (overlay env)).Env = "production" ∧
          ((resolved (overlay env)).AdminUsername = "" ∨
            (resolved (overlay env)).AdminPassword = "")
      · rw [if_pos h2] at h
        injection h with h
        exact Or.inr ⟨h.symm, h2.1, h2.2⟩
      · rw [if_neg h2] at h
        cases h
  · have key : ∀ e : Environ, (∃ cfg, Load overlay e = .ok cfg) ↔ (resolved (overlay e)).Valid :=
      fun e => ⟨fun ⟨_, hc⟩ => (Load_ok_iff.1 hc).2, fun hv => ⟨_, Load_ok_iff.2 ⟨rfl, hv⟩⟩⟩
    rw [key, key]
    have e1 : (resolved (overlay env)).Env = (resolved (overlay env2)).Env :=
      getEnv_eq_of_agree _ hE
    have e2 : (resolved (overlay env)).AdminUsername = (resolved (overlay env2)).AdminUsername :=
      getEnv_eq_of_agree _ hU
    have e3 : (resolved (overlay env)).AdminPassword = (resolved (overlay env2)).AdminPassword :=
      getEnv_eq_of_agree _ hW
    unfold Config.Valid
    rw [e1, e2, e3]
  · refine ⟨_, Load_of_development ?_⟩
    rcases h with h | h | h
    · exact getEnv_of_none _ h
    · exact getEnv_of_empty _ h
    · exact getEnv_of_set _ h (by decide)

/-- C8, as stated, fails in its last part: with `GOBLOG_ENV` unset in the process
environment and a `.env` file holding `GOBLOG_ENV=staging`, `Load` ends fatally. -/
theorem Load_error_paths_counterexample :
    emptyEnviron "GOBLOG_ENV" = none ∧
    Load (godotenvLoad (environOf [("GOBLOG_ENV", "staging")])) emptyEnviron =
      .error (invalidEnvFatal "staging") ∧
    ¬ ∃ cfg, Load (godotenvLoad (environOf [("GOBLOG_ENV", "staging")])) emptyEnviron =
      .ok cfg := by
  have hl : Load (godotenvLoad (environOf [("GOBLOG_ENV", "staging")])) emptyEnviron =
      .error (invalidEnvFatal "staging") := by decide
  refine ⟨rfl, hl, ?_⟩
  rintro ⟨cfg, hc⟩
  rw [hl] at hc
  cases hc

/-- C8, amended: `Load` has two fatal exits only, the one for an invalid mode and
the one for missing production credentials. Whether it succeeds depends only on
`GOBLOG_ENV`, `GOBLOG_ADMIN_USERNAME` and `GOBLOG_ADMIN_PASSWORD`: two environments
that agree on these three either both succeed or both fail, whatever the other
eight variables hold. When `GOBLOG_ENV` is set to the empty string or to
`development`, or is unset while the `.env` file is absent or gives it no value
other than the empty string or `development`, `Load` succeeds for every value of
every other variable. -/
theorem Load_error_paths (file : Environ) :
    (∀ (env : Environ) (f : Fatal), Load (godotenvLoad file) env = .error f →
      (f = invalidEnvFatal (getEnv (godotenvLoad file env) "GOBLOG_ENV" "development") ∧
          getEnv (godotenvLoad file env) "GOBLOG_ENV" "development" ≠ "development" ∧
          getEnv (godotenvLoad file env) "GOBLOG_ENV" "development" ≠ "production") ∨
        (f = missingCredentialsFatal ∧
          getEnv (godotenvLoad file env) "GOBLOG_ENV" "development" = "production" ∧
          (getEnv (godotenvLoad file env) "GOBLOG_ADMIN_USERNAME" "" = "" ∨
            getEnv (godotenvLoad file env) "GOBLOG_ADMIN_PASSWORD" "" = ""))) ∧
    (∀ env env2 : Environ,
      env "GOBLOG_ENV" = env2 "GOBLOG_ENV" →
      env "GOBLOG_ADMIN_USERNAME" = env2 "GOBLOG_ADMIN_USERNAME" →
      env "GOBLOG_ADMIN_PASSWORD" = env2 "GOBLOG_ADMIN_PASSWORD" →
      ((∃ cfg, Load (godotenvLoad file) env = .ok cfg) ↔
        (∃ cfg, Load (godotenvLoad file) env2 = .ok cfg))) ∧
    (∀ env : Environ,
      (env "GOBLOG_ENV" = some "" ∨ env "GOBLOG_ENV" = some "development" ∨
        (env "GOBLOG_ENV" = none ∧
          (file "GOBLOG_ENV" = none ∨ file "GOBLOG_ENV" = some "" ∨
            file "GOBLOG_ENV" = some "development"))) →
      ∃ cfg, Load (godotenvLoad file) env = .ok cfg) := by
  obtain ⟨h1, h2, h3⟩ := Load_error_paths_of_overlay (godotenvLoad file)
  refine ⟨h1, fun env env2 hE hU hW => h2 env env2 (godotenvLoad_congr hE)
    (godotenvLoad_congr hU) (godotenvLoad_congr hW), fun env h => h3 env ?_⟩
  rcases h with h | h | ⟨h, hf⟩
  · exact Or.inr (Or.inl (godotenvLoad_of_some h))
  · exact Or.inr (Or.inr (godotenvLoad_of_some h))
  · rw [godotenvLoad_of_none h]
    exact hf

theorem Load_error_paths_witness :
    ((∃ cfg, Load (godotenvLoad (environOf [("GOBLOG_PORT", "7000")])) testEnviron = .ok cfg) ↔
        (∃ cfg, Load (godotenvLoad (environOf [("GOBLOG_PORT", "7000")]))
          (environOf [("GOBLOG_ADMIN_USERNAME", "admin"), ("GOBLOG_ADMIN_PASSWORD", "secret"),
            ("GOBLOG_ENV", "production")]) = .ok cfg)) ∧
      (∃ cfg, Load (godotenvLoad (environOf [("GOBLOG_PORT", "7000")]))
        (environOf [("GOBLOG_ENV", ""), ("GOBLOG_PORT", "not a port")]) = .ok cfg) :=
  ⟨(Load_error_paths (environOf [("GOBLOG_PORT", "7000")])).2.1 testEnviron
      (environOf [("GOBLOG_ADMIN_USERNAME", "admin"), ("GOBLOG_ADMIN_PASSWORD", "secret"),
        ("GOBLOG_ENV", "production")]) (by decide) (by decide) (by decide),
    (Load_error_paths (environOf [("GOBLOG_PORT", "7000")])).2.2
      (environOf [("GOBLOG_ENV", ""), ("GOBLOG_PORT", "not a port")]) (Or.inl (by decide))⟩

/-- C9: when the mode is invalid, the fatal message identifies the offending
value: for every invalid resolved value `v` of `GOBLOG_ENV` the fatal call has `v`
as its only argument and its message is
`invalid GOBLOG_ENV value <quoted v>: must be "development" or "production"`. -/
theorem Load_invalid_mode_message (quote : String → String) (overlay : Environ → Environ)
    (env : Environ) (v : String)
    (hv : getEnv (overlay env) "GOBLOG_ENV" "development" = v)
    (hd : v ≠ "development") (hp : v ≠ "production") :
    ∃ f : Fatal, Load overlay env = .error f ∧ f.args = [v] ∧
      f.message quote =
        "invalid GOBLOG_ENV value " ++ quote v ++ ": must be \"development\" or \"production\"" := by
  have hv2 : (resolved (overlay env)).Env = v := hv
  refine ⟨invalidEnvFatal v, ?_, rfl, invalidEnvFatal_message quote v⟩
  have := @Load_of_invalid overlay env (by rw [hv2]; exact hd)
    (by rw [hv2]; exact hp)
  rw [this, hv2]

theorem Load_invalid_mode_message_witness :
    ∃ f : Fatal, Load noOverlay stagingEnviron = .error f ∧ f.args = ["staging"] ∧
      f.message plainQuote =
        "invalid GOBLOG_ENV value " ++ plainQuote "staging" ++
          ": must be \"development\" or \"production\"" :=
  Load_invalid_mode_message plainQuote noOverlay stagingEnviron "staging"
    (by decide) (by decide) (by decide)

/-- C10: in every configuration `Load` returns, the seven fields with a non-empty
default (`Port`, `BaseURL`, `BlogTitle`, `AuthorName`, `DBPath`, `UploadDir`, `Env`)
are non-empty; the other four (`BlogDescription`, `AdminUsername`, `AdminPassword`,
`SessionSecret`) can be empty, as they are in the run on the empty environment.
More generally `getEnv` is non-empty whenever its fallback is. -/
theorem Load_nonempty_fields :
    (∀ (overlay : Environ → Environ) (env : Environ) (cfg : Config),
      Load overlay env = .ok cfg →
      cfg.Port ≠ "" ∧ cfg.BaseURL ≠ "" ∧ cfg.BlogTitle ≠ "" ∧ cfg.AuthorName ≠ "" ∧
        cfg.DBPath ≠ "" ∧ cfg.UploadDir ≠ "" ∧ cfg.Env ≠ "") ∧
    (∃ cfg, Load noOverlay emptyEnviron = .ok cfg ∧
      cfg.BlogDescription = "" ∧ cfg.AdminUsername = "" ∧ cfg.AdminPassword = "" ∧
        cfg.SessionSecret = "") ∧
    (∀ (env : Environ) (key fallback : String),
      fallback ≠ "" → getEnv env key fallback ≠ "") := by
  refine ⟨fun overlay env cfg h => ?_, ⟨defaultConfig, by decide, rfl, rfl, rfl, rfl⟩,
    fun env key fallback h => getEnv_ne_empty env key h⟩
  rw [(Load_ok_iff.1 h).1]
  exact ⟨getEnv_ne_empty _ _ (by decide), getEnv_ne_empty _ _ (by decide),
    getEnv_ne_empty _ _ (by decide), getEnv_ne_empty _ _ (by decide),
    getEnv_ne_empty _ _ (by decide), getEnv_ne_empty _ _ (by decide),
    getEnv_ne_empty _ _ (by decide)⟩

theorem Load_nonempty_fields_witness :
    (testConfig.Port ≠ "" ∧ testConfig.BaseURL ≠ "" ∧ testConfig.BlogTitle ≠ "" ∧
        testConfig.AuthorName ≠ "" ∧ testConfig.DBPath ≠ "" ∧ testConfig.UploadDir ≠ "" ∧
        testConfig.Env ≠ "") ∧
      getEnv emptyEnviron "TEST_CONFIG_KEY_MISSING" "fallback" ≠ "" :=
  ⟨Load_nonempty_fields.1 noOverlay testEnviron testConfig (by decide),
    Load_nonempty_fields.2.2 emptyEnviron "TEST_CONFIG_KEY_MISSING" "fallback" (by decide)⟩

end Goblog
